import Mathlib

/-
Verification development for github_project_exporter.py: a GitHub
Project-to-CSV exporter.  The Python program operates on JSON data
(dicts, lists, strings, numbers, None) returned by `gh api graphql`;
we embed those values as the inductive type `JValue` and translate each
Python operation used by the source (dict `.get`, subscripting,
truthiness, iteration, `str()`, `in`, `str.lower`, `str.replace` with
single-character arguments) as an executable Lean function.  Fallible
Python operations (those that can raise) return `Except String`, the
error string standing for the raised exception's message.
-/

/-- JSON-like Python values: None, bool, int, str, list, dict.
Numbers are modelled as integers; the source only ever converts them
with `str()` and all specified inputs are integral. -/
inductive JValue where
  | null
  | bool (b : Bool)
  | num (n : Int)
  | str (s : String)
  | arr (elems : List JValue)
  | obj (fields : List (String × JValue))

/-- First-match association lookup, modelling Python dict key access
(dict keys are unique, so first match is the match). -/
def lookupKey : List (String × JValue) → String → Option JValue
  | [], _ => none
  | (k, v) :: rest, key => if k = key then some v else lookupKey rest key

/-- Python truthiness (`bool(v)`): None, False, 0, empty string, empty
list and empty dict are falsy; everything else is truthy. -/
def jtruthy : JValue → Bool
  | .null => false
  | .bool b => b
  | .num n => n != 0
  | .str s => s != ""
  | .arr l => !l.isEmpty
  | .obj l => !l.isEmpty

/-- Python `v.get(key, dflt)`: only dicts have `.get`; any other value
raises AttributeError. -/
def pyGetD (v : JValue) (key : String) (dflt : JValue) : Except String JValue :=
  match v with
  | .obj fields => .ok ((lookupKey fields key).getD dflt)
  | _ => .error "AttributeError"

/-- Python `v.get(key)` (default None). -/
def pyGet (v : JValue) (key : String) : Except String JValue :=
  pyGetD v key .null

/-- Python `v[key]` with a string key: KeyError on a dict missing the
key, TypeError on lists, strings and scalars. -/
def pySubscript (v : JValue) (key : String) : Except String JValue :=
  match v with
  | .obj fields =>
    match lookupKey fields key with
    | some x => .ok x
    | none => .error ("KeyError: " ++ key)
  | .str _ => .error "TypeError: string indices must be integers"
  | .arr _ => .error "TypeError: list indices must be integers"
  | _ => .error "TypeError: object is not subscriptable"

/-- Python iteration `for x in v`: lists yield elements, strings yield
one-character strings, dicts yield their keys, scalars raise TypeError. -/
def pyIter : JValue → Except String (List JValue)
  | .arr l => .ok l
  | .str s => .ok (s.data.map (fun c => .str (String.singleton c)))
  | .obj fields => .ok (fields.map (fun kv => .str kv.1))
  | _ => .error "TypeError: object is not iterable"

/-- A single-quote character, used by the Python `repr` of strings. -/
def singleQuote : String := String.singleton (Char.ofNat 39)

mutual

/-- Python `repr(v)` for JSON-like values (str() of containers uses it). -/
def pyRepr : JValue → String
  | .null => "None"
  | .bool true => "True"
  | .bool false => "False"
  | .num n => toString n
  | .str s => singleQuote ++ s ++ singleQuote
  | .arr l => "[" ++ pyReprList l ++ "]"
  | .obj fields => "\x7b" ++ pyReprFields fields ++ "\x7d"

/-- Comma-separated reprs of list elements. -/
def pyReprList : List JValue → String
  | [] => ""
  | [v] => pyRepr v
  | v :: rest => pyRepr v ++ ", " ++ pyReprList rest

/-- Comma-separated reprs of dict entries. -/
def pyReprFields : List (String × JValue) → String
  | [] => ""
  | [(k, v)] => singleQuote ++ k ++ singleQuote ++ ": " ++ pyRepr v
  | (k, v) :: rest =>
      singleQuote ++ k ++ singleQuote ++ ": " ++ pyRepr v ++ ", " ++ pyReprFields rest

end

/-- Python `str(v)`: identity on strings, `repr`-like elsewhere
(`str(None) = "None"`, `str(5) = "5"`, `str(True) = "True"`). -/
def pyStr (v : JValue) : String :=
  match v with
  | .str s => s
  | v => pyRepr v

/-- Python `v == s` for a string literal `s`: equal strings compare
equal, values of other types are never equal to a string. -/
def pyEqStr (v : JValue) (s : String) : Bool :=
  match v with
  | .str t => t == s
  | _ => false

/-- ASCII lowercasing of one character, as Python `str.lower()` acts
on the ASCII field names appearing here. -/
def asciiLower (c : Char) : Char :=
  if 'A' ≤ c ∧ c ≤ 'Z' then Char.ofNat (c.toNat + 32) else c

/-- Python `s.lower()` (ASCII range). -/
def lowerStr (s : String) : String := String.mk (s.data.map asciiLower)

/-- Python `v.replace(old, new)` where `old` and `new` are single
characters (as in the source: `.replace('\n', ' ').replace('\r', ' ')`);
for one-character arguments `str.replace` is exactly per-character
substitution.  Only strings have `.replace`. -/
def pyReplaceChar (v : JValue) (cOld cNew : Char) : Except String JValue :=
  match v with
  | .str s => .ok (.str (String.mk (s.data.map (fun c => if c = cOld then cNew else c))))
  | _ => .error "AttributeError"

/- ----------------------------------------------------------------
Transport adapter: `_make_graphql_request` (source lines 37-60).
The external `gh` subprocess is modelled by its completed outcome
(return code, stdout, stderr); `json.loads` is modelled by a parse
oracle `parse : String -> Except String JValue` (error = the
JSONDecodeError message).  `check=True` raises CalledProcessError
exactly when the return code is non-zero, before any parsing.
---------------------------------------------------------------- -/

/-- Outcome of the external `gh` process invocation. -/
structure CompletedProcess where
  returncode : Int
  stdout : String
  stderr : String

/-- Python `key in v`: key test on dicts, membership on lists,
substring test on strings, TypeError on scalars. -/
def pyContainsKey (key : String) : JValue → Except String Bool
  | .obj fields => .ok ((lookupKey fields key).isSome)
  | .arr l => .ok (l.any (fun v => pyEqStr v key))
  | .str s => .ok (decide ((s.splitOn key).length > 1))
  | _ => .error "TypeError: argument is not iterable"

/-- Embedding of `_make_graphql_request` (source lines 37-60): raise
with the tool diagnostics on non-zero exit, raise a parse error on
unparseable output, raise a GraphQL error carrying `str(data[errors])`
when the response has an `errors` entry, otherwise return `data["data"]`
unmodified. -/
def make_graphql_request (run : CompletedProcess)
    (parse : String → Except String JValue) : Except String JValue :=
  if run.returncode == 0 then
    match parse run.stdout with
    | .error e => .error ("Failed to parse GraphQL response: " ++ e)
    | .ok data =>
      match pyContainsKey "errors" data with
      | .error e => .error e
      | .ok true =>
        match pySubscript data "errors" with
        | .error e => .error e
        | .ok errs => .error ("GraphQL errors: " ++ pyStr errs)
      | .ok false => pySubscript data "data"
  else .error ("gh CLI request failed: " ++ run.stderr)

/- ----------------------------------------------------------------
Paginator: `get_all_project_items` (source lines 62-146).
The transport is a function from the current cursor (a Python value:
initially None, afterwards whatever `endCursor` held) to the `data`
object returned by `_make_graphql_request`; org and project number are
fixed inside it.  The Python `while True` loop has no client-side
bound, so the embedding takes a fuel parameter; `none` means the fuel
ran out before the loop terminated.  Alongside the accumulated items
the embedding records the list of cursor values passed to each query
call, in call order, so that call count and cursor correctness are
stated directly.
---------------------------------------------------------------- -/

/-- Loop body of `get_all_project_items`: issue the query with the
current cursor, drill into `data["organization"]["projectV2"]["items"]`,
extend the accumulator with `project_data["nodes"]`, stop when
`pageInfo["hasNextPage"]` is falsy, otherwise continue from
`pageInfo["endCursor"]`.  Any raised error propagates unchanged. -/
def fetchPagesAux (request : JValue → Except String JValue) :
    Nat → JValue → List JValue → List JValue →
    Option (Except String (List JValue × List JValue))
  | 0, _, _, _ => none
  | Nat.succ fuel, cursor, acc, calls =>
    match request cursor with
    | .error e => some (.error e)
    | .ok data =>
      match (pySubscript data "organization" >>= fun org =>
             pySubscript org "projectV2" >>= fun pv =>
             pySubscript pv "items") with
      | .error e => some (.error e)
      | .ok projectData =>
        match (pySubscript projectData "nodes" >>= pyIter) with
        | .error e => some (.error e)
        | .ok nodes =>
          match (pySubscript projectData "pageInfo" >>= fun pi =>
                 pySubscript pi "hasNextPage") with
          | .error e => some (.error e)
          | .ok hasNext =>
            if !jtruthy hasNext then some (.ok (acc ++ nodes, calls ++ [cursor]))
            else
              match (pySubscript projectData "pageInfo" >>= fun pi =>
                     pySubscript pi "endCursor") with
              | .error e => some (.error e)
              | .ok endCur => fetchPagesAux request fuel endCur (acc ++ nodes) (calls ++ [cursor])

/-- Embedding of `get_all_project_items` (source lines 62-146): cursor
starts absent (None), accumulator and call trace start empty. -/
def get_all_project_items (request : JValue → Except String JValue) (fuel : Nat) :
    Option (Except String (List JValue × List JValue)) :=
  fetchPagesAux request fuel .null [] []

/- ----------------------------------------------------------------
Flattener: `process_items_to_csv_rows` (source lines 148-201).
---------------------------------------------------------------- -/

/-- Embedding of the story-points extraction loop (source lines
172-184): scan `field_values`; at the first entry whose
`field.get("name", "").lower()` equals "story points", take
`str(entry["number"])` if a `number` key is present, else the raw
`entry["text"]` if a `text` key is present, else leave the initial
empty string, and stop (the `break` runs on every name match).
Entries with a different name are skipped. -/
def storyPointsOf : List JValue → Except String JValue
  | [] => .ok (.str "")
  | fv :: rest =>
    match pyGetD fv "field" (.obj []) with
    | .error e => .error e
    | .ok fieldInfo =>
      match pyGetD fieldInfo "name" (.str "") with
      | .error e => .error e
      | .ok fieldName =>
        match fieldName with
        | .str s =>
          if lowerStr s = "story points" then
            match fv with
            | .obj fields =>
              match lookupKey fields "number" with
              | some numV => .ok (.str (pyStr numV))
              | none =>
                match lookupKey fields "text" with
                | some textV => .ok textV
                | none => .ok (.str "")
            | _ => .error "AttributeError"
          else storyPointsOf rest
        | _ => .error "AttributeError"

/-- Embedding of the label list comprehension (source line 166):
`[label["name"] for label in nodes]`, first raised error wins. -/
def labelNamesOf : List JValue → Except String (List JValue)
  | [] => .ok []
  | lab :: rest =>
    match pySubscript lab "name" with
    | .error e => .error e
    | .ok nm =>
      match labelNamesOf rest with
      | .error e => .error e
      | .ok rest2 => .ok (nm :: rest2)

/-- Body of the per-item processing for an item whose content is truthy
(source lines 157-197), in the source's evaluation order: number, title,
body, url, labels, type, story points, formatted title, then the row
with the newline cleanup applied at row-construction time. -/
def processContent (item content : JValue) : Except String (List JValue) := do
  let number ← pyGetD content "number" (.str "")
  let title ← pyGetD content "title" (.str "")
  let body0 ← pyGet content "body"
  let body := if jtruthy body0 then body0 else JValue.str ""
  let url ← pyGetD content "url" (.str "")
  let labelsObj ← pyGetD content "labels" (.obj [])
  let nodesV ← pyGet labelsObj "nodes"
  let labels ← if jtruthy nodesV then do
      let lv ← pySubscript content "labels"
      let nv ← pySubscript lv "nodes"
      let elems ← pyIter nv
      labelNamesOf elems
    else .ok []
  let issueType := if labels.any (fun l => pyEqStr l "Epic") then "Epic" else "Story"
  let fvObj ← pyGetD item "fieldValues" (.obj [])
  let fieldValuesV ← pyGetD fvObj "nodes" (.arr [])
  let fvList ← pyIter fieldValuesV
  let sp ← storyPointsOf fvList
  let formattedTitle := if jtruthy sp then JValue.str ("[" ++ pyStr sp ++ "] " ++ pyStr title) else title
  let cleaned1 ← pyReplaceChar body '\n' ' '
  let cleaned2 ← pyReplaceChar cleaned1 '\r' ' '
  .ok [JValue.str issueType, formattedTitle, JValue.str (pyStr number), url, cleaned2, JValue.str ""]

/-- Processing of one project item (source lines 152-199): items whose
`item.get("content")` is falsy are skipped (`none`); otherwise the
6-entry CSV row is produced. -/
def processItem (item : JValue) : Except String (Option (List JValue)) :=
  match pyGet item "content" with
  | .error e => .error e
  | .ok content =>
    if jtruthy content then (processContent item content).map some
    else .ok none

/-- Embedding of `process_items_to_csv_rows` (source lines 148-201):
process items in order, dropping skipped ones; the first raised error
aborts the whole call. -/
def process_items_to_csv_rows : List JValue → Except String (List (List JValue))
  | [] => .ok []
  | item :: rest =>
    match processItem item with
    | .error e => .error e
    | .ok none => process_items_to_csv_rows rest
    | .ok (some row) =>
      match process_items_to_csv_rows rest with
      | .error e => .error e
      | .ok rows => .ok (row :: rows)

/- ----------------------------------------------------------------
Orchestrator: `export_to_csv` (source lines 203-220) and `main`
(source lines 222-235).  The CSV file is opened only after all pages
are fetched and all rows are built, so a fetch or flatten failure
leaves no file; the written file is modelled by the row list.  `main`
catches any exception and exits with code 1; on success it exits 0.
---------------------------------------------------------------- -/

/-- Embedding of `export_to_csv`: fetch all items, flatten, then write.
`some (.ok rows)` means the CSV was written with exactly `rows`;
`some (.error e)` means the operation raised `e` before any file was
opened; `none` means the fuel bound was hit. -/
def export_to_csv (request : JValue → Except String JValue) (fuel : Nat) :
    Option (Except String (List (List JValue))) :=
  match get_all_project_items request fuel with
  | none => none
  | some (.error e) => some (.error e)
  | some (.ok (items, _)) =>
    match process_items_to_csv_rows items with
    | .error e => some (.error e)
    | .ok rows => some (.ok rows)

/-- Embedding of `main` (source lines 222-235): result is the process
exit code together with the written CSV contents (`none` = no file
produced). -/
def mainProgram (request : JValue → Except String JValue) (fuel : Nat) :
    Option (Nat × Option (List (List JValue))) :=
  match export_to_csv request fuel with
  | none => none
  | some (.error _) => some (1, none)
  | some (.ok rows) => some (0, some rows)

/- ----------------------------------------------------------------
Well-formed inputs, shaped exactly like the GraphQL response the
source's query (lines 68-128) produces: a project item carries an id,
a `fieldValues.nodes` list and a `content` object with number, title,
body, url and `labels.nodes`.
---------------------------------------------------------------- -/

/-- A label node: `{ "name": <name> }`. -/
def mkLabelNode (nm : String) : JValue := .obj [("name", .str nm)]

/-- Payload of one custom-field value: a text value, a numeric value,
or neither (the GraphQL union may match no fragment). -/
inductive FieldPayload where
  | text (s : String)
  | num (n : Int)
  | empty

/-- A `fieldValues` node as the query returns it: the payload key
(`text` or `number`) precedes the `field.name` object. -/
def mkFieldValue (name : String) (p : FieldPayload) : JValue :=
  match p with
  | .text s => .obj [("text", .str s), ("field", .obj [("name", .str name)])]
  | .num n => .obj [("number", .num n), ("field", .obj [("name", .str name)])]
  | .empty => .obj [("field", .obj [("name", .str name)])]

/-- The linked issue / pull request content object. -/
def mkContent (n : Int) (t b u : String) (ls : List String) : JValue :=
  .obj [("number", .num n), ("title", .str t), ("body", .str b), ("url", .str u),
        ("labels", .obj [("nodes", .arr (ls.map mkLabelNode))])]

/-- A complete well-formed project item. -/
def mkItem (n : Int) (t b u : String) (ls : List String)
    (fs : List (String × FieldPayload)) : JValue :=
  .obj [("id", .str "item"),
        ("fieldValues", .obj [("nodes", .arr (fs.map fun f => mkFieldValue f.1 f.2))]),
        ("content", mkContent n t b u ls)]

/- ----------------------------------------------------------------
Spec-side description of the flattener's output on well-formed items
(section 3 of the specification), to be proved equal to the code's
behaviour.
---------------------------------------------------------------- -/

/-- Modelled from the spec: the payload of the first field whose name
matches "Story Points" case-insensitively, if any. -/
def firstStoryPointsMatch : List (String × FieldPayload) → Option FieldPayload
  | [] => none
  | (nm, p) :: rest =>
    if lowerStr nm = "story points" then some p else firstStoryPointsMatch rest

/-- Story-points string of a payload: numeric values go through
`str()`, text values are taken as is, an absent payload gives "". -/
def spValue : Option FieldPayload → String
  | none => ""
  | some (.num n) => toString n
  | some (.text s) => s
  | some .empty => ""

/-- Story-points string extracted from a well-formed field list. -/
def spOfFields (fs : List (String × FieldPayload)) : String :=
  spValue (firstStoryPointsMatch fs)

/-- Modelled from the spec: each newline character and each carriage
return independently replaced by one space. -/
def cleanBody (s : String) : String :=
  String.mk (s.data.map fun c => if c = '\n' then ' ' else if c = '\r' then ' ' else c)

/-- The 6-entry CSV row the flattener produces for a well-formed item:
Type, Title, ReferenceId, Link, Description, AcceptanceCriteria. -/
def expectedRow (n : Int) (t b u : String) (ls : List String)
    (fs : List (String × FieldPayload)) : List JValue :=
  [ .str (if ls.contains "Epic" then "Epic" else "Story"),
    .str (if spOfFields fs = "" then t else "[" ++ spOfFields fs ++ "] " ++ t),
    .str (toString n),
    .str u,
    .str (cleanBody b),
    .str "" ]

/- ----------------------------------------------------------------
Mock transport for the pagination claims: three pages of 100, 100 and
7 items with hasNextPage true / true / false.
---------------------------------------------------------------- -/

/-- The `data` object of one items page, shaped like the query result:
`organization.projectV2.items` with `pageInfo` and `nodes`. -/
def mkPageData (nodes : List JValue) (hasNext : Bool) (endCur : JValue) : JValue :=
  .obj [("organization", .obj [("projectV2", .obj [("items",
      .obj [("pageInfo", .obj [("hasNextPage", .bool hasNext), ("endCursor", endCur)]),
            ("nodes", .arr nodes)])])])]

/-- First mock page: items 0..99. -/
def mockItemsA : List JValue := (List.range 100).map (fun i => JValue.num i)

/-- Second mock page: items 100..199. -/
def mockItemsB : List JValue := (List.range 100).map (fun i => JValue.num (100 + i))

/-- Third mock page: items 200..206. -/
def mockItemsC : List JValue := (List.range 7).map (fun i => JValue.num (200 + i))

/-- Mock transport: pages of 100, 100 and 7 items with hasNextPage
true / true / false, keyed by the cursor each call must carry. -/
def mockRequest : JValue → Except String JValue
  | .null => .ok (mkPageData mockItemsA true (.str "cursor1"))
  | .str "cursor1" => .ok (mkPageData mockItemsB true (.str "cursor2"))
  | .str "cursor2" => .ok (mkPageData mockItemsC false .null)
  | _ => .error "unexpected cursor"

/-- Transport whose first page succeeds (with hasNextPage true) and
whose second fetch raises `e`. -/
def failingRequest (nodes1 : List JValue) (e : String) : JValue → Except String JValue
  | .null => .ok (mkPageData nodes1 true (.str "cursor1"))
  | _ => .error e

theorem ok_bind {α β : Type} (a : α) (f : α → Except String β) :
    (Except.ok a : Except String α) >>= f = f a := rfl

theorem data_mk (l : List Char) : (String.mk l).data = l := rfl

theorem body_if_collapse (b : String) :
    (if (b != "") = true then JValue.str b else JValue.str "") = JValue.str b := by
  by_cases h : b = "" <;> simp [h]

theorem title_if (sp t : String) :
    (if (sp != "") = true then JValue.str ("[" ++ sp ++ "] " ++ t) else JValue.str t) =
      .str (if sp = "" then t else "[" ++ sp ++ "] " ++ t) := by
  by_cases h : sp = "" <;> simp [h]

theorem clean_fun_comp :
    ((fun c => if c = '\r' then ' ' else c) ∘ (fun c => if c = '\n' then ' ' else c)) =
      (fun c => if c = '\n' then ' ' else if c = '\r' then ' ' else c) := by
  funext c
  by_cases h1 : c = '\n'
  · simp [h1]
  · by_cases h2 : c = '\r' <;> simp [h1, h2]

theorem labelNamesOf_map (ls : List String) :
    labelNamesOf (ls.map mkLabelNode) = .ok (ls.map JValue.str) := by
  induction ls with
  | nil => rfl
  | cons a rest ih => simp [labelNamesOf, mkLabelNode, pySubscript, lookupKey, ih]

theorem labelNamesOf_map_cons (a : String) (rest : List String) :
    labelNamesOf (mkLabelNode a :: rest.map mkLabelNode) =
      .ok (JValue.str a :: rest.map JValue.str) := labelNamesOf_map (a :: rest)

theorem strBeq_comm (a b : String) : (a == b) = (b == a) := by
  rw [Bool.eq_iff_iff]
  simp only [beq_iff_eq]
  exact eq_comm

theorem any_epic (ls : List String) :
    ((ls.map JValue.str).any (fun l => pyEqStr l "Epic")) = ls.contains "Epic" := by
  induction ls with
  | nil => rfl
  | cons a rest ih =>
    simp only [List.map_cons, List.any_cons, List.contains_cons, ih]
    have hp : pyEqStr (JValue.str a) "Epic" = ("Epic" == a) := by
      show (a == "Epic") = ("Epic" == a)
      exact strBeq_comm a "Epic"
    rw [hp]

theorem any_epic_cons (a : String) (rest : List String) :
    ((JValue.str a :: rest.map JValue.str).any (fun l => pyEqStr l "Epic")) =
      (a :: rest).contains "Epic" := any_epic (a :: rest)

theorem storyPointsOf_cons_step (nm : String) (p : FieldPayload) (tail : List JValue) :
    storyPointsOf (mkFieldValue nm p :: tail) =
      if lowerStr nm = "story points" then .ok (.str (spValue (some p)))
      else storyPointsOf tail := by
  cases p <;> by_cases h : lowerStr nm = "story points" <;>
    simp [storyPointsOf, mkFieldValue, pyGetD, lookupKey, spValue, pyStr, pyRepr, h]

theorem storyPointsOf_mkFields (fs : List (String × FieldPayload)) :
    storyPointsOf (fs.map fun f => mkFieldValue f.1 f.2) = .ok (.str (spOfFields fs)) := by
  induction fs with
  | nil => rfl
  | cons f rest ih =>
    obtain ⟨nm, p⟩ := f
    rw [List.map_cons, storyPointsOf_cons_step]
    by_cases h : lowerStr nm = "story points"
    · simp [h, spOfFields, firstStoryPointsMatch]
    · simp [h, ih, spOfFields, firstStoryPointsMatch]

theorem processItem_mkItem (n : Int) (t b u : String) (ls : List String)
    (fs : List (String × FieldPayload)) :
    processItem (mkItem n t b u ls fs) = .ok (some (expectedRow n t b u ls fs)) := by
  cases ls with
  | nil =>
    simp only [processItem, processContent, mkItem, mkContent, pyGet, pyGetD, pySubscript,
      lookupKey, String.reduceEq, reduceIte, Option.getD, jtruthy, List.map_nil, List.map_cons,
      List.isEmpty_nil, List.isEmpty_cons, Bool.not_false, Bool.not_true, ok_bind, pyIter,
      body_if_collapse, storyPointsOf_mkFields, labelNamesOf_map_cons, any_epic_cons,
      pyReplaceChar, pyStr, pyRepr, title_if, data_mk, List.map_map, clean_fun_comp,
      List.any_nil, List.contains_nil, Bool.false_eq_true, if_false, if_true,
      Except.map, expectedRow, cleanBody, spOfFields]
  | cons a rest =>
    simp only [processItem, processContent, mkItem, mkContent, pyGet, pyGetD, pySubscript,
      lookupKey, String.reduceEq, reduceIte, Option.getD, jtruthy, List.map_nil, List.map_cons,
      List.isEmpty_nil, List.isEmpty_cons, Bool.not_false, Bool.not_true, ok_bind, pyIter,
      body_if_collapse, storyPointsOf_mkFields, labelNamesOf_map_cons, any_epic_cons,
      pyReplaceChar, pyStr, pyRepr, title_if, data_mk, List.map_map, clean_fun_comp,
      List.any_nil, List.contains_nil, Bool.false_eq_true, if_false, if_true,
      Except.map, expectedRow, cleanBody, spOfFields]

theorem contains_iff_mem_str (ls : List String) (a : String) :
    ls.contains a = true ↔ a ∈ ls := by
  induction ls with
  | nil => simp
  | cons x rest ih => simp [List.contains_cons, ih, beq_iff_eq]

/- ----------------------------------------------------------------
Spec items: the shapes of input the specification talks about — a
well-formed item with linked content, or a draft item whose content
object is empty (the GraphQL content union matches no fragment).
---------------------------------------------------------------- -/

/-- An input item as described by the specification. -/
inductive SpecItem where
  | withContent (n : Int) (t b u : String) (ls : List String)
      (fs : List (String × FieldPayload))
  | draft

/-- The JSON value of a spec item. -/
def SpecItem.toJ : SpecItem → JValue
  | .withContent n t b u ls fs => mkItem n t b u ls fs
  | .draft => .obj [("id", .str "item"), ("fieldValues", .obj [("nodes", .arr [])]),
                    ("content", .obj [])]

/-- The CSV row a spec item should produce (`none` = dropped). -/
def SpecItem.rowOf : SpecItem → Option (List JValue)
  | .withContent n t b u ls fs => some (expectedRow n t b u ls fs)
  | .draft => none

/-- Whether a spec item has linked content. -/
def SpecItem.hasContent : SpecItem → Bool
  | .withContent _ _ _ _ _ _ => true
  | .draft => false

/- ----------------------------------------------------------------
Claim theorems.
---------------------------------------------------------------- -/

/-- C1: the paginator fully enumerates pages.  Against a mock
transport returning pages of 100, 100 and 7 items with hasNextPage
true / true / false, `get_all_project_items` terminates (within fuel
3, i.e. after exactly 3 query calls), returns exactly the 207 items
in original order (items numbered 0..206, equal to the three pages
concatenated in API order), and the recorded call trace shows the
three query calls carried the correct cursors: absent (None), then
"cursor1", then "cursor2". -/
theorem pagination_mock_three_pages :
    get_all_project_items mockRequest 3 =
      some (.ok ((List.range 207).map (fun i => JValue.num i),
                 [JValue.null, JValue.str "cursor1", JValue.str "cursor2"])) ∧
    (List.range 207).map (fun i => JValue.num i) = mockItemsA ++ mockItemsB ++ mockItemsC :=
  ⟨rfl, rfl⟩

/-- C2 counterexample: the claim says the first name match that
carries a non-empty value wins; but on an item whose field list is
[("Story Points", text ""), ("story points", number 5)] the code stops
at the first name match (the empty text) and leaves the title "T"
unprefixed, not "[5] T" as the claim requires. -/
theorem storyPoints_first_nonempty_counterexample :
    process_items_to_csv_rows
        [mkItem 7 "T" "" "u" [] [("Story Points", .text ""), ("story points", .num 5)]] =
      .ok [[.str "Story", .str "T", .str "7", .str "u", .str "", .str ""]] ∧
    JValue.str "T" ≠ JValue.str "[5] T" :=
  ⟨rfl, by simp⟩

/-- C2 (amended): extraction stops at the first case-insensitive name
match regardless of whether that match carries a non-empty value, and
the Title is prefixed "[<sp>] " exactly when that first name match
carries a non-empty text or numeric value (`firstStoryPointsMatch` /
`spValue` spell this out); in particular a numeric value 5 under any
case variant of the name yields "[5] <title>", and with no matching
field the Title is unchanged. -/
theorem storyPoints_title_first_name_match (n : Int) (t b u : String) (ls : List String)
    (fs : List (String × FieldPayload)) :
    processItem (mkItem n t b u ls fs) = .ok (some (expectedRow n t b u ls fs)) ∧
    (expectedRow n t b u ls fs).get? 1 =
      some (.str (if spValue (firstStoryPointsMatch fs) = "" then t
                  else "[" ++ spValue (firstStoryPointsMatch fs) ++ "] " ++ t)) ∧
    (expectedRow n t b u ls [("STORY POINTS", FieldPayload.num 5)]).get? 1 =
      some (.str ("[5] " ++ t)) ∧
    (expectedRow n t b u ls []).get? 1 = some (.str t) :=
  ⟨processItem_mkItem n t b u ls fs, rfl, rfl, rfl⟩

/-- C3: for every well-formed item with content, the Type column is
"Epic" exactly when the label set contains the literal string "Epic"
(case-sensitive), and is otherwise "Story". -/
theorem epic_type_iff_epic_label (n : Int) (t b u : String) (ls : List String)
    (fs : List (String × FieldPayload)) :
    processItem (mkItem n t b u ls fs) = .ok (some (expectedRow n t b u ls fs)) ∧
    ((expectedRow n t b u ls fs).get? 0 = some (.str "Epic") ↔ "Epic" ∈ ls) ∧
    ((expectedRow n t b u ls fs).get? 0 = some (.str "Epic") ∨
     (expectedRow n t b u ls fs).get? 0 = some (.str "Story")) := by
  have hbridge := contains_iff_mem_str ls "Epic"
  refine ⟨processItem_mkItem n t b u ls fs, ?_, ?_⟩
  · cases hco : ls.contains "Epic" with
    | true => simp [expectedRow, hco, hbridge.mp hco]
    | false =>
      have hnm : ¬ "Epic" ∈ ls := fun hm => by
        rw [hbridge.mpr hm] at hco; cases hco
      simp [expectedRow, hco, hnm]
  · cases hco : ls.contains "Epic" <;> simp [expectedRow, hco] <;>
      exact Decidable.em _

/-- C4: the Description column is the body with each newline and each
carriage return independently replaced by one space and nothing else
(`cleanBody` is exactly that character map); in particular the body
"Line1\nLine2\r\nLine3" yields Description "Line1 Line2  Line3", with
two spaces where the CRLF pair stood. -/
theorem description_newline_replacement (n : Int) (t b u : String) (ls : List String)
    (fs : List (String × FieldPayload)) :
    processItem (mkItem n t b u ls fs) = .ok (some (expectedRow n t b u ls fs)) ∧
    (expectedRow n t b u ls fs).get? 4 = some (.str (cleanBody b)) ∧
    cleanBody b =
      String.mk (b.data.map fun c => if c = '\n' then ' ' else if c = '\r' then ' ' else c) ∧
    process_items_to_csv_rows [mkItem 1 "t" "Line1\nLine2\r\nLine3" "u" [] []] =
      .ok [[.str "Story", .str "t", .str "1", .str "u", .str "Line1 Line2  Line3", .str ""]] :=
  ⟨processItem_mkItem n t b u ls fs, rfl, rfl, rfl⟩

/-- C5: the flattener drops exactly the items without content: over
any list of spec items it returns one row per content-bearing item, in
input order (the filterMap characterization), and the output length is
the input length minus the number of content-less items. -/
theorem flattener_drops_contentless_exactly (specs : List SpecItem) :
    process_items_to_csv_rows (specs.map SpecItem.toJ) = .ok (specs.filterMap SpecItem.rowOf) ∧
    (specs.filterMap SpecItem.rowOf).length =
      specs.length - (specs.filter (fun s => !s.hasContent)).length := by
  induction specs with
  | nil => exact ⟨rfl, rfl⟩
  | cons s rest ih =>
    obtain ⟨ih1, ih2⟩ := ih
    have hle := List.length_filter_le (fun s => !s.hasContent) rest
    cases s with
    | withContent n t b u ls fs =>
      constructor
      · simp only [List.map_cons, process_items_to_csv_rows, SpecItem.toJ,
          processItem_mkItem, ih1, List.filterMap_cons, SpecItem.rowOf]
      · have hc : SpecItem.hasContent (SpecItem.withContent n t b u ls fs) = true := rfl
        simp only [List.filterMap_cons, SpecItem.rowOf, List.length_cons, List.filter_cons,
          hc, Bool.not_true, Bool.false_eq_true, if_false, ih2]
        omega
    | draft =>
      constructor
      · simp only [List.map_cons, process_items_to_csv_rows, SpecItem.toJ,
          List.filterMap_cons, SpecItem.rowOf]
        exact ih1
      · have hc : SpecItem.hasContent SpecItem.draft = false := rfl
        simp only [List.filterMap_cons, SpecItem.rowOf, List.length_cons, List.filter_cons,
          hc, Bool.not_false, if_true, List.length_cons, ih2]
        omega

/-- C6: a transport failure on the second page of a fetch is
propagated unchanged by the paginator (the same error value comes
out), the whole export fails with that error before any CSV file is
opened, and the program exits with code 1 having produced no file
(the `none` in the pair). -/
theorem transport_failure_propagates (nodes1 : List JValue) (e : String) (k : Nat) :
    get_all_project_items (failingRequest nodes1 e) (k + 2) = some (.error e) ∧
    export_to_csv (failingRequest nodes1 e) (k + 2) = some (.error e) ∧
    mainProgram (failingRequest nodes1 e) (k + 2) = some (1, none) :=
  ⟨rfl, rfl, rfl⟩

/-- C7: the transport adapter raises "gh CLI request failed" carrying
the tool's stderr when the external process exits non-zero, raises
"Failed to parse GraphQL response" when the output does not parse,
raises "GraphQL errors" carrying the stringified raw error list when
the parsed response has an `errors` entry, and otherwise returns the
`data` entry of the parsed response unmodified. -/
theorem make_graphql_request_cases :
    (∀ (run : CompletedProcess) (parse : String → Except String JValue),
      run.returncode ≠ 0 →
      make_graphql_request run parse = .error ("gh CLI request failed: " ++ run.stderr)) ∧
    (∀ (run : CompletedProcess) (parse : String → Except String JValue) (e : String),
      run.returncode = 0 → parse run.stdout = .error e →
      make_graphql_request run parse = .error ("Failed to parse GraphQL response: " ++ e)) ∧
    (∀ (run : CompletedProcess) (parse : String → Except String JValue)
       (fields : List (String × JValue)) (errs : JValue),
      run.returncode = 0 → parse run.stdout = .ok (.obj fields) →
      lookupKey fields "errors" = some errs →
      make_graphql_request run parse = .error ("GraphQL errors: " ++ pyStr errs)) ∧
    (∀ (run : CompletedProcess) (parse : String → Except String JValue)
       (fields : List (String × JValue)) (d : JValue),
      run.returncode = 0 → parse run.stdout = .ok (.obj fields) →
      lookupKey fields "errors" = none → lookupKey fields "data" = some d →
      make_graphql_request run parse = .ok d) := by
  refine ⟨?_, ?_, ?_, ?_⟩
  · intro run parse h
    simp [make_graphql_request, beq_iff_eq, h]
  · intro run parse e h1 h2
    simp [make_graphql_request, beq_iff_eq, h1, h2]
  · intro run parse fields errs h1 h2 h3
    simp [make_graphql_request, beq_iff_eq, h1, h2, pyContainsKey, h3, pySubscript]
  · intro run parse fields d h1 h2 h3 h4
    simp [make_graphql_request, beq_iff_eq, h1, h2, pyContainsKey, h3, pySubscript, h4]

/-- C7 witness: the four cases at concrete inputs — non-zero exit with
stderr "boom", unparseable output, a response carrying an errors list,
and a successful response whose data entry is returned untouched. -/
theorem make_graphql_request_cases_witness :
    make_graphql_request ⟨1, "", "boom"⟩ (fun _ => .ok .null) =
      .error "gh CLI request failed: boom" ∧
    make_graphql_request ⟨0, "x", ""⟩ (fun _ => .error "Expecting value") =
      .error "Failed to parse GraphQL response: Expecting value" ∧
    make_graphql_request ⟨0, "x", ""⟩ (fun _ => .ok (.obj [("errors", .arr [.num 1])])) =
      .error "GraphQL errors: [1]" ∧
    make_graphql_request ⟨0, "x", ""⟩ (fun _ => .ok (.obj [("data", .num 3)])) =
      .ok (.num 3) :=
  ⟨make_graphql_request_cases.1 ⟨1, "", "boom"⟩ _ (by decide),
   make_graphql_request_cases.2.1 ⟨0, "x", ""⟩ _ "Expecting value" rfl rfl,
   make_graphql_request_cases.2.2.1 ⟨0, "x", ""⟩ _ [("errors", .arr [.num 1])]
     (.arr [.num 1]) rfl rfl rfl,
   make_graphql_request_cases.2.2.2 ⟨0, "x", ""⟩ _ [("data", .num 3)] (.num 3)
     rfl rfl rfl rfl⟩

/-- C8: the flattener is deterministic — it is a pure function of the
item list alone (the embedding takes no state, clock or I/O input), so
two runs on identical input produce identical row sequences. -/
theorem flattener_deterministic (xs ys : List JValue) (h : xs = ys) :
    process_items_to_csv_rows xs = process_items_to_csv_rows ys := by
  rw [h]

/-- C8 witness: two runs on the same concrete one-item list coincide. -/
theorem flattener_deterministic_witness :
    process_items_to_csv_rows [mkItem 1 "t" "b" "u" ["Epic"] []] =
      process_items_to_csv_rows [mkItem 1 "t" "b" "u" ["Epic"] []] :=
  flattener_deterministic [mkItem 1 "t" "b" "u" ["Epic"] []]
    [mkItem 1 "t" "b" "u" ["Epic"] []] rfl

/-- C9: a first-matching "Story Points" field with numeric value 0
prefixes the Title with "[0] " (str(0) = "0" is non-empty, so 0 is not
treated as empty), while a matching field with empty text value leaves
the Title unchanged. -/
theorem zero_story_points_prefixed (n : Int) (t b u : String) (ls : List String) :
    processItem (mkItem n t b u ls [("Story Points", .num 0)]) =
      .ok (some (expectedRow n t b u ls [("Story Points", FieldPayload.num 0)])) ∧
    (expectedRow n t b u ls [("Story Points", FieldPayload.num 0)]).get? 1 =
      some (.str ("[0] " ++ t)) ∧
    processItem (mkItem n t b u ls [("Story Points", .text "")]) =
      .ok (some (expectedRow n t b u ls [("Story Points", FieldPayload.text "")])) ∧
    (expectedRow n t b u ls [("Story Points", FieldPayload.text "")]).get? 1 =
      some (.str t) :=
  ⟨processItem_mkItem n t b u ls [("Story Points", .num 0)], rfl,
   processItem_mkItem n t b u ls [("Story Points", .text "")], rfl⟩

/-- C10 counterexample: on an item whose content is present and truthy
but whose "labels" entry is null, the flattener raises (AttributeError
from `None.get("nodes")`) instead of emitting a defaulted row, so the
claim that null entries are tolerated is false. -/
theorem null_labels_attribute_error :
    process_items_to_csv_rows
        [JValue.obj [("id", .str "i"), ("fieldValues", .obj [("nodes", .arr [])]),
                     ("content", .obj [("number", .num 1), ("title", .str "T"),
                                       ("labels", JValue.null)])]] =
      .error "AttributeError" := rfl

/-- C10 (amended): the flattener is total over items with MISSING
entries: content present but lacking any of labels, fieldValues, body,
number, title or url still yields a 6-field row with empty-string
substitutions, Type "Story" and an unprefixed Title; and an item whose
content is an empty mapping is dropped exactly like one with no
content at all.  (Null-valued entries are not tolerated: a null labels
or fieldValues raises, per the counterexample.) -/
theorem missing_entries_defaulted (t : String) (k : Int) :
    processItem (.obj [("content", .obj [("title", .str t)])]) =
      .ok (some [.str "Story", .str t, .str "", .str "", .str "", .str ""]) ∧
    processItem (.obj [("content", .obj [("number", .num k)])]) =
      .ok (some [.str "Story", .str "", .str (toString k), .str "", .str "", .str ""]) ∧
    process_items_to_csv_rows [.obj [("content", .obj [])], .obj []] = .ok [] :=
  ⟨rfl, rfl, rfl⟩
